import Mathlib

/-!
Shallow embedding of the repository's two serverless handlers:

* `src/physical-ai-textbook/api/health/handler.py` — the Health Responder
  (`Health.handle_request`): returns a fixed 200 JSON payload.
* `src/physical-ai-textbook/api/chat/handler.py` — the Adapter Gateway
  (`Chat.handle_request`): module-level initialization tries to import the
  FastAPI app and wrap it with `Mangum(fastapi_app, lifespan="off")`; on
  failure the module captures `error_message` and sets
  `HANDLER_AVAILABLE = False`.  Per invocation, the handler either returns a
  fixed 500 payload (unavailable), forwards to the Mangum handler and returns
  its response verbatim, or catches a forwarding exception and returns a 500
  payload carrying `str(e)`.

Python values that flow through the handlers (the handlers build and return
`Dict[str, Any]` literals) are embedded as the inductive `Py`; exceptions are
embedded as `Except String` with the exception's `str(e)` text.
-/

/-- Embedding of the Python values the handlers build and return:
integers, strings, and (insertion-ordered) string-keyed dicts. -/
inductive Py : Type where
  | int : Int → Py
  | str : String → Py
  | dict : List (String × Py) → Py

namespace PyJson

/-- Lowercase hex digit, as produced by CPython's `json` encoder. -/
def hexDigit (n : Nat) : Char :=
  if n < 10 then Char.ofNat (48 + n) else Char.ofNat (87 + (n % 16))

/-- A `\uXXXX` escape for a code unit below 0x10000. -/
def uEscape (n : Nat) : String :=
  "\\u" ++ String.mk [hexDigit ((n / 4096) % 16), hexDigit ((n / 256) % 16),
    hexDigit ((n / 16) % 16), hexDigit (n % 16)]

/-- How CPython's `json.dumps` (default `ensure_ascii=True`) escapes one
character inside a string literal: named escapes for `"` `\` and the common
control characters, `\uXXXX` for other characters outside 0x20–0x7e,
surrogate pairs above 0xffff. -/
def escapeChar (c : Char) : String :=
  if c = '"' then "\\\""
  else if c = '\\' then "\\\\"
  else if c = '\n' then "\\n"
  else if c = '\r' then "\\r"
  else if c = '\t' then "\\t"
  else if c = Char.ofNat 8 then "\\b"
  else if c = Char.ofNat 12 then "\\f"
  else if c.toNat < 32 ∨ 126 < c.toNat then
    if 65535 < c.toNat then
      uEscape (55296 + (c.toNat - 65536) / 1024) ++ uEscape (56320 + (c.toNat - 65536) % 1024)
    else uEscape c.toNat
  else String.singleton c

/-- A JSON string literal: `"` + escaped characters + `"`. -/
def jsonStr (s : String) : String :=
  "\"" ++ String.join (s.toList.map escapeChar) ++ "\""

mutual

/-- Embedding of Python `json.dumps` with its default separators
(`", "` between items, `": "` after keys). -/
def dumps : Py → String
  | .int i => toString i
  | .str s => jsonStr s
  | .dict kvs => "\x7b" ++ dumpsPairs kvs ++ "\x7d"

/-- The comma-separated `"key": value` items of a JSON object. -/
def dumpsPairs : List (String × Py) → String
  | [] => ""
  | [kv] => jsonStr kv.1 ++ ": " ++ dumps kv.2
  | kv :: rest => jsonStr kv.1 ++ ": " ++ dumps kv.2 ++ ", " ++ dumpsPairs rest

end

end PyJson

/-- Key lookup in an embedded Python dict (first match, like `d[k]`). -/
def Py.lookup (k : String) : Py → Option Py
  | .dict kvs => List.lookup k kvs
  | _ => none

namespace Health

/-- Embeds `handle_request(event, context)` of
`src/physical-ai-textbook/api/health/handler.py`: unconditionally returns the
fixed 200 response with the four CORS/content headers and the fixed JSON
body. -/
def handle_request {E C : Type} (_event : E) (_context : C) : Py :=
  Py.dict [
    ("statusCode", .int 200),
    ("headers", .dict [
      ("Content-Type", .str "application/json"),
      ("Access-Control-Allow-Origin", .str "*"),
      ("Access-Control-Allow-Methods", .str "GET, OPTIONS"),
      ("Access-Control-Allow-Headers", .str "Content-Type")]),
    ("body", .str (PyJson.dumps (.dict [
      ("status", .str "ok"),
      ("message", .str "Physical AI Chatbot Backend is active!"),
      ("version", .str "1.0")])))]

end Health

namespace Chat

/-- The module-level state of `src/physical-ai-textbook/api/chat/handler.py`
after its `try/except` import block: either `HANDLER_AVAILABLE = True` with
the Mangum `handler` in scope, or `HANDLER_AVAILABLE = False` with
`error_message = str(e)` captured.  The wrapped handler takes `(event,
context)` and either returns a response value or raises (embedded as
`Except String`, carrying `str(e)`). -/
inductive GatewayState (E C : Type) : Type where
  | available (handler : E → C → Except String Py)
  | unavailable (error_message : String)

/-- The external collaborators of the module-level `try` block: the
`from index import app` import (which may raise) and the `Mangum` class
(whose import or construction may raise).  `Mangum` is applied to the app and
the `lifespan` keyword string and yields the wrapped handler or raises. -/
structure InitEnv (E C App : Type) : Type where
  importApp : Except String App
  importMangum : Except String (App → String → Except String (E → C → Except String Py))

/-- The module-level `try/except` block of the chat handler:
`from index import app`, `from mangum import Mangum`,
`handler = Mangum(fastapi_app, lifespan="off")`; any exception is caught,
`HANDLER_AVAILABLE` becomes `False` and `error_message = str(e)` is kept. -/
def initGateway {E C App : Type} (env : InitEnv E C App) : GatewayState E C :=
  match env.importApp with
  | .error e => .unavailable e
  | .ok app =>
    match env.importMangum with
    | .error e => .unavailable e
    | .ok Mangum =>
      match Mangum app "off" with
      | .error e => .unavailable e
      | .ok handler => .available handler

/-- Embeds `handle_request(event, context)` of
`src/physical-ai-textbook/api/chat/handler.py`: if `HANDLER_AVAILABLE` is
false, return the fixed 500 "Backend initialization failed" response carrying
`error_message`; otherwise call `await handler(event, context)` and return its
response, catching any exception into the 500 "Internal server error"
response carrying `str(e)`. -/
def handle_request {E C : Type} (st : GatewayState E C) (event : E) (context : C) : Py :=
  match st with
  | .unavailable error_message =>
    Py.dict [
      ("statusCode", .int 500),
      ("headers", .dict [
        ("Content-Type", .str "application/json"),
        ("Access-Control-Allow-Origin", .str "*")]),
      ("body", .str (PyJson.dumps (.dict [
        ("error", .str "Backend initialization failed"),
        ("details", .str error_message)])))]
  | .available handler =>
    match handler event context with
    | .ok response => response
    | .error e =>
      Py.dict [
        ("statusCode", .int 500),
        ("headers", .dict [
          ("Content-Type", .str "application/json"),
          ("Access-Control-Allow-Origin", .str "*")]),
        ("body", .str (PyJson.dumps (.dict [
          ("error", .str "Internal server error"),
          ("details", .str e)])))]

/-- The same `handle_request`, instrumented with the number of calls made to the
wrapped Mangum handler: same match structure as `handle_request`, paired with
`0` on the unavailable path and `1` on the available path (where
`await handler(event, context)` is evaluated exactly once). -/
def handle_request_traced {E C : Type} (st : GatewayState E C) (event : E) (context : C) :
    Py × Nat :=
  match st with
  | .unavailable error_message =>
    (Py.dict [
      ("statusCode", .int 500),
      ("headers", .dict [
        ("Content-Type", .str "application/json"),
        ("Access-Control-Allow-Origin", .str "*")]),
      ("body", .str (PyJson.dumps (.dict [
        ("error", .str "Backend initialization failed"),
        ("details", .str error_message)])))], 0)
  | .available handler =>
    match handler event context with
    | .ok response => (response, 1)
    | .error e =>
      (Py.dict [
        ("statusCode", .int 500),
        ("headers", .dict [
          ("Content-Type", .str "application/json"),
          ("Access-Control-Allow-Origin", .str "*")]),
        ("body", .str (PyJson.dumps (.dict [
          ("error", .str "Internal server error"),
          ("details", .str e)])))], 1)

end Chat

/-- The "headers" entries are all strings. -/
def isStrDict : List (String × Py) → Bool
  | [] => true
  | (_, .str _) :: rest => isStrDict rest
  | _ => false

/-- The Invocation Response shape of the spec's data model: a dict with an
integer `statusCode`, a string-to-string `headers` dict, and a string
`body`. -/
def isInvocationResponse (r : Py) : Bool :=
  match r with
  | .dict kvs =>
    (match List.lookup "statusCode" kvs with | some (.int _) => true | _ => false) &&
    (match List.lookup "headers" kvs with | some (.dict hs) => isStrDict hs | _ => false) &&
    (match List.lookup "body" kvs with | some (.str _) => true | _ => false)
  | _ => false

/-- A response's headers dict contains `Access-Control-Allow-Origin: *`. -/
def hasCorsStar (r : Py) : Prop :=
  ∃ hs, r.lookup "headers" = some (.dict hs) ∧
    List.lookup "Access-Control-Allow-Origin" hs = some (.str "*")

/-- C1: for every invocation event and every context value, the Health
Responder's `handle_request` returns a response with `statusCode` 200, a body
that is the `json.dumps` encoding of
`{"status": "ok", "message": "Physical AI Chatbot Backend is active!",
"version": "1.0"}` (so its decoded JSON equals that object), and headers
containing `Content-Type: application/json`,
`Access-Control-Allow-Origin: *`, `Access-Control-Allow-Methods: GET, OPTIONS`
and `Access-Control-Allow-Headers: Content-Type`. -/
theorem health_handle_request_spec (E C : Type) (event : E) (context : C) :
    (Health.handle_request event context).lookup "statusCode" = some (.int 200) ∧
    (Health.handle_request event context).lookup "body" =
      some (.str (PyJson.dumps (.dict [
        ("status", .str "ok"),
        ("message", .str "Physical AI Chatbot Backend is active!"),
        ("version", .str "1.0")]))) ∧
    ∃ hs, (Health.handle_request event context).lookup "headers" = some (.dict hs) ∧
      List.lookup "Content-Type" hs = some (.str "application/json") ∧
      List.lookup "Access-Control-Allow-Origin" hs = some (.str "*") ∧
      List.lookup "Access-Control-Allow-Methods" hs = some (.str "GET, OPTIONS") ∧
      List.lookup "Access-Control-Allow-Headers" hs = some (.str "Content-Type") :=
  ⟨rfl, rfl, _, rfl, rfl, rfl, rfl, rfl⟩

/-- C2: while the gateway is in the `Unavailable` state with captured error
text `msg`, `handle_request` returns, for every event and context, a response
with `statusCode` 500, headers containing `Content-Type: application/json`
and `Access-Control-Allow-Origin: *`, and a body that is the `json.dumps`
encoding of `{"error": "Backend initialization failed", "details": msg}`
(so its decoded JSON has those two keys), regardless of the event's
content. -/
theorem chat_unavailable_response_spec (E C : Type) (event : E) (context : C)
    (msg : String) :
    (Chat.handle_request (.unavailable msg) event context).lookup "statusCode" =
      some (.int 500) ∧
    (∃ hs, (Chat.handle_request (.unavailable msg) event context).lookup "headers" =
        some (.dict hs) ∧
      List.lookup "Content-Type" hs = some (.str "application/json") ∧
      List.lookup "Access-Control-Allow-Origin" hs = some (.str "*")) ∧
    (Chat.handle_request (.unavailable msg) event context).lookup "body" =
      some (.str (PyJson.dumps (.dict [
        ("error", .str "Backend initialization failed"),
        ("details", .str msg)]))) :=
  ⟨rfl, ⟨_, rfl, rfl, rfl⟩, rfl⟩

/-- C4: if initialization succeeded (the gateway holds the Mangum handler
`h`) and forwarding completes without raising (`h event context = .ok r`),
then `handle_request` returns exactly `r`, the wrapped application's
response, unmodified. -/
theorem chat_forwarding_ok_spec (E C : Type) (h : E → C → Except String Py)
    (event : E) (context : C) (r : Py) (hr : h event context = .ok r) :
    Chat.handle_request (.available h) event context = r := by
  simp [Chat.handle_request, hr]

/-- Witness for C4 at a concrete wrapped handler that returns `Py.int 7`. -/
theorem chat_forwarding_ok_spec_witness :
    Chat.handle_request (.available fun (_ : Unit) (_ : Unit) => Except.ok (Py.int 7)) () () =
      Py.int 7 :=
  chat_forwarding_ok_spec Unit Unit (fun _ _ => Except.ok (Py.int 7)) () () (Py.int 7) rfl

/-- C7: the `Unavailable`-state response is deterministic: two invocations
with the same captured error text and arbitrary (possibly different) events
and contexts, even of different types, return equal responses. -/
theorem chat_unavailable_deterministic (E C E2 C2 : Type) (msg : String)
    (event1 : E) (context1 : C) (event2 : E2) (context2 : C2) :
    Chat.handle_request (.unavailable msg) event1 context1 =
      Chat.handle_request (.unavailable msg) event2 context2 :=
  rfl

/-- C3: if initialization succeeded and forwarding raises (`h event context =
.error e`, where `e` is the exception's `str(e)` text), `handle_request`
catches it and returns a response with `statusCode` 500, headers containing
`Content-Type: application/json` and `Access-Control-Allow-Origin: *`, and a
body that is the `json.dumps` encoding of
`{"error": "Internal server error", "details": e}`; and the handler remains
usable: any later call whose forwarding succeeds still returns the wrapped
application's response (the exception never escapes the handler). -/
theorem chat_forwarding_error_spec (E C : Type) (h : E → C → Except String Py)
    (event : E) (context : C) (e : String) (he : h event context = .error e) :
    ((Chat.handle_request (.available h) event context).lookup "statusCode" =
        some (.int 500) ∧
      (∃ hs, (Chat.handle_request (.available h) event context).lookup "headers" =
          some (.dict hs) ∧
        List.lookup "Content-Type" hs = some (.str "application/json") ∧
        List.lookup "Access-Control-Allow-Origin" hs = some (.str "*")) ∧
      (Chat.handle_request (.available h) event context).lookup "body" =
        some (.str (PyJson.dumps (.dict [
          ("error", .str "Internal server error"),
          ("details", .str e)])))) ∧
    ∀ (event2 : E) (context2 : C) (r : Py), h event2 context2 = .ok r →
      Chat.handle_request (.available h) event2 context2 = r := by
  constructor
  · simp only [Chat.handle_request, he]
    exact ⟨rfl, ⟨_, rfl, rfl, rfl⟩, rfl⟩
  · intro event2 context2 r hr
    simp [Chat.handle_request, hr]

/-- Witness for C3 at a wrapped handler that always raises `"boom"`. -/
theorem chat_forwarding_error_spec_witness :
    ((Chat.handle_request (.available fun (_ : Unit) (_ : Unit) => Except.error "boom")
          () ()).lookup "statusCode" = some (.int 500) ∧
      (∃ hs, (Chat.handle_request (.available fun (_ : Unit) (_ : Unit) => Except.error "boom")
            () ()).lookup "headers" = some (.dict hs) ∧
        List.lookup "Content-Type" hs = some (.str "application/json") ∧
        List.lookup "Access-Control-Allow-Origin" hs = some (.str "*")) ∧
      (Chat.handle_request (.available fun (_ : Unit) (_ : Unit) => Except.error "boom")
          () ()).lookup "body" =
        some (.str (PyJson.dumps (.dict [
          ("error", .str "Internal server error"),
          ("details", .str "boom")])))) ∧
    ∀ (event2 context2 : Unit) (r : Py),
      (fun (_ : Unit) (_ : Unit) => (Except.error "boom" : Except String Py)) event2 context2 =
        .ok r →
      Chat.handle_request (.available fun (_ : Unit) (_ : Unit) => Except.error "boom")
        event2 context2 = r :=
  chat_forwarding_error_spec Unit Unit (fun _ _ => Except.error "boom") () () "boom" rfl

/-- C5 counterexample: it is not true that every response on every code path
carries `Access-Control-Allow-Origin: *`.  On the forwarded-success path the
gateway returns the wrapped application's response verbatim, so a wrapped
handler that answers with an empty headers dict yields a response without the
CORS header. -/
theorem cors_everywhere_counterexample :
    ¬ ∀ (st : Chat.GatewayState Unit Unit) (event context : Unit),
        hasCorsStar (Health.handle_request event context) ∧
        hasCorsStar (Chat.handle_request st event context) := by
  intro hall
  obtain ⟨-, hs, hlook, hcors⟩ :=
    hall (.available fun _ _ => Except.ok (Py.dict [
      ("statusCode", Py.int 200), ("headers", Py.dict []), ("body", Py.str "")])) () ()
  obtain rfl : ([] : List (String × Py)) = hs := Py.dict.inj (Option.some.inj hlook)
  exact Option.noConfusion hcors

/-- C5 amended: every locally-constructed response — the Health Responder's
fixed response, the gateway's `Unavailable`-state response, and the gateway's
caught-exception response — carries `Access-Control-Allow-Origin: *`; a
forwarded response is returned verbatim and carries the header only if the
wrapped application put it there. -/
theorem cors_local_responses (E C : Type) (event : E) (context : C) :
    hasCorsStar (Health.handle_request event context) ∧
    (∀ msg, hasCorsStar (Chat.handle_request (.unavailable msg) event context)) ∧
    (∀ (h : E → C → Except String Py) (e : String), h event context = .error e →
      hasCorsStar (Chat.handle_request (.available h) event context)) := by
  refine ⟨⟨_, rfl, rfl⟩, fun msg => ⟨_, rfl, rfl⟩, ?_⟩
  intro h e he
  simp only [Chat.handle_request, he]
  exact ⟨_, rfl, rfl⟩

/-- Witness for C5 amended at unit event/context and a raising handler. -/
theorem cors_local_responses_witness :
    hasCorsStar (Health.handle_request () ()) ∧
    (∀ msg, hasCorsStar (Chat.handle_request (.unavailable msg) () ())) ∧
    (∀ (h : Unit → Unit → Except String Py) (e : String), h () () = .error e →
      hasCorsStar (Chat.handle_request (.available h) () ())) :=
  cors_local_responses Unit Unit () ()

/-- C6: on every code path of both handlers the returned value conforms to
the Invocation Response shape (integer `statusCode`, string-to-string
`headers` dict, string `body`), given the external collaborator contract that
the wrapped application's successful responses conform; and no code path
propagates a failure past the handler boundary — `handle_request` is a total
function into `Py` even when the wrapped handler raises. -/
theorem response_shape_spec (E C : Type) (st : Chat.GatewayState E C)
    (hcol : ∀ (h : E → C → Except String Py) (event : E) (context : C) (r : Py),
      st = .available h → h event context = .ok r → isInvocationResponse r = true)
    (event : E) (context : C) :
    isInvocationResponse (Health.handle_request event context) = true ∧
    isInvocationResponse (Chat.handle_request st event context) = true := by
  refine ⟨rfl, ?_⟩
  cases st with
  | unavailable msg => rfl
  | available h =>
    cases hh : h event context with
    | ok r =>
      have hr := hcol h event context r rfl hh
      simpa [Chat.handle_request, hh] using hr
    | error e =>
      simp only [Chat.handle_request, hh]
      rfl

/-- Witness for C6 at the `Unavailable` state (collaborator contract holds
vacuously there). -/
theorem response_shape_spec_witness :
    isInvocationResponse (Health.handle_request () ()) = true ∧
    isInvocationResponse (Chat.handle_request (Chat.GatewayState.unavailable "boom") () ()) =
      true :=
  response_shape_spec Unit Unit (Chat.GatewayState.unavailable "boom")
    (fun _ _ _ _ heq _ => Chat.GatewayState.noConfusion heq) () ()

/-- C8: the module-level `try/except` block never crashes and, whichever of
its three steps raises — the `from index import app` import, the Mangum
import, or the `Mangum(fastapi_app, lifespan="off")` construction — the
gateway transitions to `Unavailable` carrying that exception's `str(e)` text;
and the translation wrapper is constructed with the lifecycle argument
`"off"`: when construction succeeds, the handler installed in the `Available`
state is exactly the one `Mangum` yields for the lifespan string `"off"`. -/
theorem initGateway_spec (E C App : Type) (env : Chat.InitEnv E C App) :
    (∀ e, env.importApp = .error e → Chat.initGateway env = .unavailable e) ∧
    (∀ app, env.importApp = .ok app →
      (∀ e, env.importMangum = .error e → Chat.initGateway env = .unavailable e) ∧
      (∀ Mangum, env.importMangum = .ok Mangum →
        (∀ e, Mangum app "off" = .error e → Chat.initGateway env = .unavailable e) ∧
        (∀ h, Mangum app "off" = .ok h → Chat.initGateway env = .available h))) := by
  constructor
  · intro e he
    simp [Chat.initGateway, he]
  · intro app ha
    constructor
    · intro e he
      simp [Chat.initGateway, ha, he]
    · intro Mangum hM
      constructor
      · intro e he
        simp [Chat.initGateway, ha, hM, he]
      · intro h hh
        simp [Chat.initGateway, ha, hM, hh]

/-- Witness for C8 at an environment whose app import raises `"boom"`. -/
theorem initGateway_spec_witness :
    Chat.initGateway
        ((Chat.InitEnv.mk (Except.error "boom")
            (Except.ok fun _ _ => Except.error "no wrapper")) :
          Chat.InitEnv Unit Unit Unit) =
      Chat.GatewayState.unavailable "boom" :=
  (initGateway_spec Unit Unit Unit
    (Chat.InitEnv.mk (Except.error "boom") (Except.ok fun _ _ => Except.error "no wrapper"))).1
    "boom" rfl

/-- C9: while the gateway is `Unavailable`, `handle_request` makes no call to
the translation wrapper or the wrapped application: the traced semantics
counts zero wrapper invocations on the unavailable path for every event and
context; and the traced semantics is faithful — its response component agrees
with `handle_request` in every state. -/
theorem chat_unavailable_no_forward (E C : Type) (msg : String) (event : E)
    (context : C) :
    (Chat.handle_request_traced (.unavailable msg) event context).2 = 0 ∧
    ∀ (st : Chat.GatewayState E C),
      (Chat.handle_request_traced st event context).1 =
        Chat.handle_request st event context := by
  refine ⟨rfl, ?_⟩
  intro st
  cases st with
  | unavailable m => rfl
  | available h =>
    cases hh : h event context with
    | ok r => simp [Chat.handle_request, Chat.handle_request_traced, hh]
    | error e => simp [Chat.handle_request, Chat.handle_request_traced, hh]

/-- C10: both locally-constructed error responses of the gateway — the
`Unavailable`-state response and the caught-exception response — carry
exactly the two headers `Content-Type: application/json` and
`Access-Control-Allow-Origin: *`, and in particular no
`Access-Control-Allow-Methods` or `Access-Control-Allow-Headers` entry. -/
theorem chat_error_headers_exact (E C : Type) (event : E) (context : C)
    (msg : String) (h : E → C → Except String Py) (e : String)
    (he : h event context = .error e) :
    (Chat.handle_request (.unavailable msg) event context).lookup "headers" =
      some (.dict [("Content-Type", Py.str "application/json"),
        ("Access-Control-Allow-Origin", Py.str "*")]) ∧
    (Chat.handle_request (.available h) event context).lookup "headers" =
      some (.dict [("Content-Type", Py.str "application/json"),
        ("Access-Control-Allow-Origin", Py.str "*")]) ∧
    ∀ hs,
      ((Chat.handle_request (.unavailable msg) event context).lookup "headers" =
          some (.dict hs) ∨
        (Chat.handle_request (.available h) event context).lookup "headers" =
          some (.dict hs)) →
      List.lookup "Access-Control-Allow-Methods" hs = none ∧
      List.lookup "Access-Control-Allow-Headers" hs = none := by
  have havail : (Chat.handle_request (.available h) event context).lookup "headers" =
      some (.dict [("Content-Type", Py.str "application/json"),
        ("Access-Control-Allow-Origin", Py.str "*")]) := by
    simp only [Chat.handle_request, he]
    rfl
  refine ⟨rfl, havail, ?_⟩
  intro hs hcase
  have hhs : ([("Content-Type", Py.str "application/json"),
      ("Access-Control-Allow-Origin", Py.str "*")] : List (String × Py)) = hs := by
    rcases hcase with hcase | hcase
    · exact Py.dict.inj (Option.some.inj hcase)
    · exact Py.dict.inj (Option.some.inj (havail.symm.trans hcase))
  rw [← hhs]
  exact ⟨rfl, rfl⟩

/-- Witness for C10 at unit event/context and a handler raising `"boom"`. -/
theorem chat_error_headers_exact_witness :
    (Chat.handle_request (.unavailable "init failed") () ()).lookup "headers" =
      some (.dict [("Content-Type", Py.str "application/json"),
        ("Access-Control-Allow-Origin", Py.str "*")]) ∧
    (Chat.handle_request
        (.available fun (_ : Unit) (_ : Unit) => Except.error "boom") () ()).lookup
        "headers" =
      some (.dict [("Content-Type", Py.str "application/json"),
        ("Access-Control-Allow-Origin", Py.str "*")]) ∧
    ∀ hs,
      ((Chat.handle_request (.unavailable "init failed") () ()).lookup "headers" =
          some (.dict hs) ∨
        (Chat.handle_request
            (.available fun (_ : Unit) (_ : Unit) => Except.error "boom") () ()).lookup
            "headers" =
          some (.dict hs)) →
      List.lookup "Access-Control-Allow-Methods" hs = none ∧
      List.lookup "Access-Control-Allow-Headers" hs = none :=
  chat_error_headers_exact Unit Unit () () "init failed"
    (fun _ _ => Except.error "boom") "boom" rfl
